import Mathlib

/-!
# Verification of the image-analysis request pipeline (`services/geminiService.ts`)

A shallow embedding of the pipeline's pure logic:

* error-signature classification and the retry controller `withRetry`
  (lines 331–359),
* credential resolution `getSystemApiKey` / `analyzeImage` step 0
  (lines 364–401),
* prompt composition (few-shot example limiting, lines 430–456),
* response normalization (trim, fence strip, JSON parse, array wrap,
  lines 473–491),
* credential validation `validateApiKey` (lines 292–326),
* image resizing in `fileToGenericBase64` (lines 244–264).

JavaScript strings are modelled as Lean `String`s, with the handful of
JavaScript builtins the code calls (`includes`, `toLowerCase`, `trim`,
`startsWith`, `JSON.parse`) modelled as executable functions over the
underlying character list.  Effectful remote calls are modelled as a
function from the attempt index to that attempt's outcome; timer waits
(`setTimeout`) are recorded as accumulated delay amounts.  JavaScript
float arithmetic in the resizer is modelled exactly (`ℕ` scaling with
truncation at the canvas-dimension assignment, which converts to an
integer by truncation).
-/

namespace ScottLin

/-- Model of a JavaScript whitespace character as produced/consumed by the
string builtins the code uses (`trim`, the `\s` regex class). -/
def jsWs (c : Char) : Bool :=
  c == ' ' || c == '\t' || c == '\n' || c == '\r' || c == '\x0c' || c == '\x0b'

/-- `charsPrefix pat cs` : does character list `cs` start with `pat`? -/
def charsPrefix : List Char → List Char → Bool
  | [], _ => true
  | _ :: _, [] => false
  | a :: as, b :: bs => a == b && charsPrefix as bs

/-- `charsInfix pat cs` : does `pat` occur contiguously inside `cs`?  Model of
JavaScript `String.prototype.includes`. -/
def charsInfix (pat : List Char) : List Char → Bool
  | [] => charsPrefix pat []
  | c :: cs => charsPrefix pat (c :: cs) || charsInfix pat cs

/-- Model of JavaScript `haystack.includes(needle)`. -/
def includesStr (haystack needle : String) : Bool :=
  charsInfix needle.data haystack.data

/-- Model of JavaScript `s.startsWith(pre)`. -/
def startsWithStr (s pre : String) : Bool :=
  charsPrefix pre.data s.data

/-- Model of JavaScript `s.toLowerCase()` (the signature strings involved are
ASCII, where `Char.toLower` agrees with the JavaScript builtin). -/
def toLowerCaseStr (s : String) : String :=
  ⟨s.data.map Char.toLower⟩

/-- Model of JavaScript `s.trim()` : strip leading and trailing whitespace. -/
def trimStr (s : String) : String :=
  ⟨((s.data.dropWhile jsWs).reverse.dropWhile jsWs).reverse⟩

/-! ## Error-signature classification (withRetry, lines 341–348) -/

/-- Line 342: `msg.includes('api key not valid') || msg.includes('key invalid')
|| msg.includes('400 bad request')` — the invalid-credential signature. -/
def invalidKeySig (msg : String) : Bool :=
  includesStr msg "api key not valid" || includesStr msg "key invalid" ||
    includesStr msg "400 bad request"

/-- Line 347: `isRateLimit` — the rate-limit signature. -/
def isRateLimitSig (msg : String) : Bool :=
  includesStr msg "429" || includesStr msg "quota" ||
    includesStr msg "exhausted" || includesStr msg "resource_exhausted"

/-- Line 348: `isServerOverload` — the server-overload signature. -/
def isServerOverloadSig (msg : String) : Bool :=
  includesStr msg "503" || includesStr msg "overloaded"

/-- Line 343: the terminal invalid-credential error message thrown by
`withRetry`. -/
def invalidKeyMessage : String := "API Key 無效或未設定 (Invalid API Key)"

/-! ## Retry controller (`withRetry`, lines 331–359) -/

/-- Final result of a `withRetry` run: either the wrapped operation's value, or
a thrown error carrying its message. -/
inductive RetryResult (α : Type) where
  | ok (a : α)
  | thrown (msg : String)
deriving DecidableEq, Repr

/-- Observable behaviour of one `withRetry` invocation: the final result, the
number of times the wrapped operation was invoked, and the sum of all
`setTimeout` waits performed. -/
structure RetryRun (α : Type) where
  result : RetryResult α
  attempts : Nat
  totalDelay : Nat
deriving DecidableEq, Repr

/-- `withRetry` (lines 331–359).  The effectful `fn` is modelled as a function
from the attempt index (0-based) to that attempt's outcome: `.ok a` for a
resolved promise, `.error e` for a rejection whose JSON-stringified text is
`e`.  Lines 335–339 lowercase that text before the signature checks; the
invalid-credential check (line 342) precedes the retryable check (line 350),
which also requires `retries > 0`; otherwise the original error is rethrown
(line 357). -/
def withRetry {α : Type} (fn : Nat → Except String α) :
    Nat → Nat → Nat → RetryRun α
  | retries, baseDelay, attempt =>
    match fn attempt with
    | .ok a => { result := .ok a, attempts := 1, totalDelay := 0 }
    | .error e =>
      let msg := toLowerCaseStr e
      if invalidKeySig msg then
        { result := .thrown invalidKeyMessage, attempts := 1, totalDelay := 0 }
      else if isRateLimitSig msg || isServerOverloadSig msg then
        match retries with
        | 0 => { result := .thrown e, attempts := 1, totalDelay := 0 }
        | r + 1 =>
          let rest := withRetry fn r (baseDelay * 2) (attempt + 1)
          { result := rest.result, attempts := rest.attempts + 1,
            totalDelay := baseDelay + rest.totalDelay }
      else
        { result := .thrown e, attempts := 1, totalDelay := 0 }

/-- Line 331's default retry budget. -/
def DEFAULT_RETRIES : Nat := 3

/-- Line 331's default base delay (milliseconds). -/
def DEFAULT_BASE_DELAY : Nat := 5000

/-! ## Credential resolution (`getSystemApiKey`, lines 364–380; line 397) -/

/-- `getSystemApiKey` (lines 364–380).  The two environment sources
(`process.env.API_KEY`, replaced at build time, and
`import.meta.env.VITE_API_KEY`) are modelled as the strings `envApiKey` and
`viteApiKey`, empty when absent (JavaScript truthiness of a string is
non-emptiness). -/
def getSystemApiKey (envApiKey viteApiKey : String) : String :=
  if envApiKey ≠ "" then envApiKey
  else if viteApiKey ≠ "" then viteApiKey
  else ""

/-- Line 397: `const effectiveKey = apiKey || getSystemApiKey();`. -/
def effectiveKeyOf (apiKey envApiKey viteApiKey : String) : String :=
  if apiKey ≠ "" then apiKey else getSystemApiKey envApiKey viteApiKey

/-- Line 400: the missing-credential error message. -/
def missingKeyMessage : String := "未設定 API Key (Missing API Key)"

/-! ## Prompt composition (lines 430–456) -/

/-- A few-shot reference example as consumed by `analyzeImage`: `base64` is the
cached normalized image and `dataJson` stands for the already-serialized
`JSON.stringify(ex.data)` of its ground-truth records (serialization by the
external `JSON.stringify` builtin). -/
structure ReferenceExample where
  id : String
  base64 : String
  dataJson : String
deriving DecidableEq, Repr

/-- One request part as pushed onto `parts` (lines 430–456). -/
inductive Part where
  | inlineData (mimeType data : String)
  | text (s : String)
deriving DecidableEq, Repr

/-- Line 455's closing instruction text. -/
def closingInstruction (fieldList : String) : String :=
  "Analyze the last image above. Identify all distinct items. Extract these fields: "
    ++ fieldList ++ ". Return a JSON Array."

/-- The `parts` array assembled at lines 430–456: `examples.slice(-1)`
(modelled as dropping all but the last element, which is exactly what
`slice(-1)` returns) contributes an image/label pair per retained example,
followed by the target image and the closing instruction.  `base64Data` is the
normalized target image, `fieldList` is `fields.join(', ')`. -/
def composeParts (base64Data fieldList : String)
    (examples : List ReferenceExample) : List Part :=
  let limitedExamples := examples.drop (examples.length - 1)
  (limitedExamples.flatMap fun ex =>
    [Part.inlineData "image/jpeg" ex.base64,
     Part.text ("Example Output (JSON Array): " ++ ex.dataJson)])
  ++ [Part.inlineData "image/jpeg" base64Data,
      Part.text (closingInstruction fieldList)]

/-! ## JSON values and a model of the `JSON.parse` builtin -/

/-- A parsed JSON value.  Number literals are kept as their source text (the
claims never depend on numeric semantics, only on the value's shape). -/
inductive Json where
  | null
  | bool (b : Bool)
  | num (lit : String)
  | str (s : String)
  | arr (elems : List Json)
  | obj (members : List (String × Json))

/-- Whitespace skipping inside JSON text. -/
def skipWs (cs : List Char) : List Char := cs.dropWhile jsWs

/-- Parse the hex digit of a `\uXXXX` escape. -/
def hexDigit (c : Char) : Option Nat :=
  if '0' ≤ c ∧ c ≤ '9' then some (c.toNat - '0'.toNat)
  else if 'a' ≤ c ∧ c ≤ 'f' then some (c.toNat - 'a'.toNat + 10)
  else if 'A' ≤ c ∧ c ≤ 'F' then some (c.toNat - 'A'.toNat + 10)
  else none

/-- Parse the body of a JSON string literal (the opening quote already
consumed), returning the decoded string and the remaining input. -/
def parseStringLit : List Char → Option (String × List Char)
  | [] => none
  | '"' :: rest => some ("", rest)
  | '\\' :: 'u' :: a :: b :: c :: d :: rest => do
    let ha ← hexDigit a
    let hb ← hexDigit b
    let hc ← hexDigit c
    let hd ← hexDigit d
    let (s, r) ← parseStringLit rest
    let n := ((ha * 16 + hb) * 16 + hc) * 16 + hd
    pure (⟨Char.ofNat n :: s.data⟩, r)
  | '\\' :: e :: rest => do
    let c ← match e with
      | '"' => some '"'
      | '\\' => some '\\'
      | '/' => some '/'
      | 'b' => some '\x08'
      | 'f' => some '\x0c'
      | 'n' => some '\n'
      | 'r' => some '\r'
      | 't' => some '\t'
      | _ => none
    let (s, r) ← parseStringLit rest
    pure (⟨c :: s.data⟩, r)
  | c :: rest => do
    let (s, r) ← parseStringLit rest
    pure (⟨c :: s.data⟩, r)

/-- Parse a JSON number literal per the JSON grammar
(`-?(0|[1-9][0-9]*)(\.[0-9]+)?([eE][+-]?[0-9]+)?`), returning its source text
and the remaining input. -/
def parseNumberLit (cs : List Char) : Option (String × List Char) :=
  let (sign, cs1) := match cs with
    | '-' :: rest => (['-'], rest)
    | rest => (([] : List Char), rest)
  match cs1 with
  | '0' :: rest => afterInt (sign ++ ['0']) rest
  | c :: rest =>
    if '1' ≤ c ∧ c ≤ '9' then
      let digits := rest.takeWhile Char.isDigit
      afterInt (sign ++ c :: digits) (rest.drop digits.length)
    else none
  | [] => none
where
  /-- Optional fraction then optional exponent. -/
  afterInt (acc : List Char) (cs : List Char) : Option (String × List Char) :=
    match cs with
    | '.' :: rest =>
      let digits := rest.takeWhile Char.isDigit
      if digits.isEmpty then none
      else afterFrac (acc ++ '.' :: digits) (rest.drop digits.length)
    | _ => afterFrac acc cs
  /-- Optional exponent. -/
  afterFrac (acc : List Char) (cs : List Char) : Option (String × List Char) :=
    match cs with
    | e :: rest =>
      if e = 'e' ∨ e = 'E' then
        let (sgn, rest1) := match rest with
          | '+' :: r => (['+'], r)
          | '-' :: r => (['-'], r)
          | r => (([] : List Char), r)
        let digits := rest1.takeWhile Char.isDigit
        if digits.isEmpty then none
        else some (⟨acc ++ e :: sgn ++ digits⟩, rest1.drop digits.length)
      else some (⟨acc⟩, e :: rest)
    | [] => some (⟨acc⟩, [])

mutual
/-- Recursive-descent parser for one JSON value (fuel-indexed; the fuel bounds
nesting depth, and every descent consumes at least one input character, so
`length + 1` fuel never runs out on real input). -/
def parseVal : Nat → List Char → Option (Json × List Char)
  | 0, _ => none
  | fuel + 1, cs =>
    match skipWs cs with
    | '{' :: rest =>
      match skipWs rest with
      | '}' :: rest2 => some (.obj [], rest2)
      | _ => do
        let (ms, rest2) ← parseMembers fuel rest
        pure (.obj ms, rest2)
    | '[' :: rest =>
      match skipWs rest with
      | ']' :: rest2 => some (.arr [], rest2)
      | _ => do
        let (xs, rest2) ← parseElems fuel rest
        pure (.arr xs, rest2)
    | '"' :: rest => do
      let (s, r) ← parseStringLit rest
      pure (.str s, r)
    | 't' :: 'r' :: 'u' :: 'e' :: rest => some (.bool true, rest)
    | 'f' :: 'a' :: 'l' :: 's' :: 'e' :: rest => some (.bool false, rest)
    | 'n' :: 'u' :: 'l' :: 'l' :: rest => some (.null, rest)
    | other => do
      let (lit, r) ← parseNumberLit other
      pure (.num lit, r)

/-- Parse the elements of a non-empty JSON array up to and including the
closing bracket. -/
def parseElems : Nat → List Char → Option (List Json × List Char)
  | 0, _ => none
  | fuel + 1, cs => do
    let (v, rest) ← parseVal fuel cs
    match skipWs rest with
    | ',' :: rest2 => do
      let (vs, rest3) ← parseElems fuel rest2
      pure (v :: vs, rest3)
    | ']' :: rest2 => pure ([v], rest2)
    | _ => none

/-- Parse the members of a non-empty JSON object up to and including the
closing brace. -/
def parseMembers : Nat → List Char → Option (List (String × Json) × List Char)
  | 0, _ => none
  | fuel + 1, cs =>
    match skipWs cs with
    | '"' :: rest => do
      let (k, rest1) ← parseStringLit rest
      match skipWs rest1 with
      | ':' :: rest2 => do
        let (v, rest3) ← parseVal fuel rest2
        match skipWs rest3 with
        | ',' :: rest4 => do
          let (ms, rest5) ← parseMembers fuel rest4
          pure ((k, v) :: ms, rest5)
        | '}' :: rest4 => pure ([(k, v)], rest4)
        | _ => none
      | _ => none
    | _ => none
end

/-- Model of the JavaScript `JSON.parse` builtin: parse one value, then require
only whitespace to remain. -/
def jsonParse (s : String) : Option Json :=
  match parseVal (s.data.length + 1) s.data with
  | some (v, rest) => if skipWs rest = [] then some v else none
  | none => none

/-! ## Response normalization (lines 473–491) -/

/-- Lines 480–482: if the (already trimmed) text starts with ```` ```json ````,
drop that prefix and any following whitespace (`replace(/^```json\s*/, '')`),
then drop a trailing ```` ``` ```` fence together with the whitespace before it
when the text ends in one (`replace(/\s*```$/, '')`); otherwise return the text
unchanged. -/
def stripJsonFence (s : String) : String :=
  if startsWithStr s "```json" then
    let afterPre := (s.data.drop 7).dropWhile jsWs
    let r := afterPre.reverse
    if charsPrefix ['`', '`', '`'] r then
      ⟨((r.drop 3).dropWhile jsWs).reverse⟩
    else ⟨afterPre⟩
  else s

/-- Line 487's `Array.isArray(parsedData)` check. -/
def isJsonArray : Json → Bool
  | .arr _ => true
  | _ => false

/-- Line 487's array check and 488's wrap: a non-array parse result becomes a
single-element array (`parsedData = [parsedData]`). -/
def ensureArray : Json → List Json
  | .arr xs => xs
  | v => [v]

/-- The classified failures of the response-normalization stage. -/
inductive RespError where
  | noResponse
  | jsonSyntaxError
deriving DecidableEq, Repr

/-- Line 476's error message. -/
def noResponseMessage : String := "No response from AI"

/-- Modelled message of the `SyntaxError` the external `JSON.parse` builtin
throws on malformed input (its exact text is browser-specific and opaque to
the code; it contains none of the substrings the catch block at lines
493–510 tests for). -/
def jsonSyntaxErrorMessage : String := "Unexpected token in JSON"

/-- Lines 473–491: the response-normalization stage.  An empty response string
is falsy, so `if (!responseText)` fires (line 475); otherwise the text is
trimmed, unfenced, parsed, and a non-array result is wrapped. -/
def processResponse (responseText : String) : Except RespError (List Json) :=
  if responseText = "" then .error .noResponse
  else
    let cleanJson := stripJsonFence (trimStr responseText)
    match jsonParse cleanJson with
    | none => .error .jsonSyntaxError
    | some v => .ok (ensureArray v)

/-! ## `analyzeImage` orchestration (lines 388–511) -/

/-- Lines 493–510: the catch block's message rewriting before rethrow. -/
def friendlyMessage (m : String) : String :=
  if includesStr m "\x22code\x22:429" then "API 用量已達上限，請稍候再試 (429 Rate Limit)"
  else if includesStr m "429" then "API 用量已達上限，請稍候再試"
  else if includesStr m "503" then "伺服器繁忙，請稍候再試"
  else m

/-- Observable behaviour of one `analyzeImage` call: the outcome (extracted
records, or the rethrown error's message), how many times the remote
`generateContent` call was invoked, and the total backoff delay waited. -/
structure AnalyzeRun where
  result : Except String (List Json)
  remoteAttempts : Nat
  totalDelay : Nat

/-- `analyzeImage` (lines 388–511), with the browser-bound stages abstracted:
the remote `generateContent` call (wrapped in `withRetry`, line 459) is the
attempt-indexed outcome function `remote`, whose success value is the response
text `response.text` (empty string for a missing text).  Image normalization
and prompt composition do not affect the claims settled against this model and
are embedded separately (`resizeDims`, `composeParts`). -/
def analyzeImage (apiKey envApiKey viteApiKey : String)
    (remote : Nat → Except String String) (retries baseDelay : Nat) :
    AnalyzeRun :=
  let effectiveKey := effectiveKeyOf apiKey envApiKey viteApiKey
  if effectiveKey = "" then
    { result := .error (friendlyMessage missingKeyMessage),
      remoteAttempts := 0, totalDelay := 0 }
  else
    let run := withRetry remote retries baseDelay 0
    match run.result with
    | .thrown m =>
      { result := .error (friendlyMessage m),
        remoteAttempts := run.attempts, totalDelay := run.totalDelay }
    | .ok responseText =>
      match processResponse responseText with
      | .ok records =>
        { result := .ok records,
          remoteAttempts := run.attempts, totalDelay := run.totalDelay }
      | .error .noResponse =>
        { result := .error (friendlyMessage noResponseMessage),
          remoteAttempts := run.attempts, totalDelay := run.totalDelay }
      | .error .jsonSyntaxError =>
        { result := .error (friendlyMessage jsonSyntaxErrorMessage),
          remoteAttempts := run.attempts, totalDelay := run.totalDelay }

/-! ## Credential validation (`validateApiKey`, lines 292–326) -/

/-- Outcome of the minimal probe call (line 297's `generateContent`):
success, or a rejection whose JSON-stringified text is `e`. -/
inductive ProbeOutcome where
  | success
  | failure (e : String)
deriving DecidableEq, Repr

/-- `ValidationResult.status` (line 230). -/
inductive VStatus where
  | valid
  | invalid
  | quota
deriving DecidableEq, Repr

/-- `ValidationResult` (lines 229–233). -/
structure ValidationResult where
  status : VStatus
  message : Option String
  detail : Option String
deriving DecidableEq, Repr

/-- `validateApiKey` (lines 292–326).  The probe call's outcome is the
parameter `probe`; `errorDetail` stands for the human-readable detail string
the catch block extracts from `error.message` at lines 308–318 (an external
error payload, opaque to the classification).  Classification (lines 320–324)
inspects the lowercased `JSON.stringify(error)` text. -/
def validateApiKey (apiKey : String) (probe : ProbeOutcome)
    (errorDetail : String) : ValidationResult :=
  if apiKey = "" then
    { status := .invalid, message := some "Empty Key", detail := none }
  else
    match probe with
    | .success => { status := .valid, message := none, detail := none }
    | .failure e =>
      let msg := toLowerCaseStr e
      if includesStr msg "429" || includesStr msg "quota" ||
          includesStr msg "resource_exhausted" then
        { status := .quota, message := some "Quota Exceeded",
          detail := some errorDetail }
      else
        { status := .invalid, message := some "Invalid Key or Connection Failed",
          detail := some errorDetail }

/-! ## Image resizing (`fileToGenericBase64`, lines 244–264) -/

/-- Line 250's dimension cap. -/
def MAX_SIZE : Nat := 1024

/-- The dimension computation of lines 251–264: if the longest side exceeds
`MAX_SIZE` the image is scaled so that side becomes `MAX_SIZE`
(`height *= MAX_SIZE / width` resp. `width *= MAX_SIZE / height`), otherwise
the dimensions are unchanged.  The scaled side is assigned to
`canvas.width`/`canvas.height`, whose IDL conversion truncates to an integer;
the float product is modelled exactly, so the truncation is `ℕ` division. -/
def resizeDims (width height : Nat) : Nat × Nat :=
  if width > height then
    if width > MAX_SIZE then (MAX_SIZE, height * MAX_SIZE / width)
    else (width, height)
  else
    if height > MAX_SIZE then (width * MAX_SIZE / height, MAX_SIZE)
    else (width, height)

/-! ## Step lemmas for the retry controller -/

/-- A successful attempt ends the run at once: one invocation, no wait. -/
theorem withRetry_step_ok {α : Type} (fn : Nat → Except String α)
    (r b attempt : Nat) (a : α) (h : fn attempt = .ok a) :
    withRetry fn r b attempt = { result := .ok a, attempts := 1, totalDelay := 0 } := by
  unfold withRetry
  rw [h]

/-- A failure matching the invalid-credential signature ends the run at once
with the terminal invalid-credential error. -/
theorem withRetry_step_invalid {α : Type} (fn : Nat → Except String α)
    (r b attempt : Nat) (e : String) (h : fn attempt = .error e)
    (hsig : invalidKeySig (toLowerCaseStr e) = true) :
    withRetry fn r b attempt =
      { result := .thrown invalidKeyMessage, attempts := 1, totalDelay := 0 } := by
  unfold withRetry
  rw [h]
  simp [hsig]

/-- A retryable failure with budget remaining waits `b`, then re-runs with one
fewer retry and a doubled delay. -/
theorem withRetry_step_retry {α : Type} (fn : Nat → Except String α)
    (r b attempt : Nat) (e : String) (h : fn attempt = .error e)
    (hv : invalidKeySig (toLowerCaseStr e) = false)
    (hr : (isRateLimitSig (toLowerCaseStr e) ||
           isServerOverloadSig (toLowerCaseStr e)) = true) :
    withRetry fn (r + 1) b attempt =
      { result := (withRetry fn r (b * 2) (attempt + 1)).result,
        attempts := (withRetry fn r (b * 2) (attempt + 1)).attempts + 1,
        totalDelay := b + (withRetry fn r (b * 2) (attempt + 1)).totalDelay } := by
  conv_lhs => rw [withRetry]
  rw [h]
  simp [hv, hr]

/-- A retryable failure with no budget left rethrows the original error. -/
theorem withRetry_step_exhausted {α : Type} (fn : Nat → Except String α)
    (b attempt : Nat) (e : String) (h : fn attempt = .error e)
    (hv : invalidKeySig (toLowerCaseStr e) = false)
    (hr : (isRateLimitSig (toLowerCaseStr e) ||
           isServerOverloadSig (toLowerCaseStr e)) = true) :
    withRetry fn 0 b attempt = { result := .thrown e, attempts := 1, totalDelay := 0 } := by
  unfold withRetry
  rw [h]
  simp [hv, hr]

/-! ## Claim theorems -/

/-- C1.  For every operation whose failure text matches an invalid-credential
signature (case-insensitive "api key not valid", "key invalid", or
"400 bad request"), the retry controller `withRetry` makes exactly one remote
attempt — zero retries, no backoff delay — and throws the terminal
invalid-credential error, whatever the remaining retry budget and base
delay. -/
theorem retry_invalid_credential_single_attempt {α : Type}
    (fn : Nat → Except String α) (retries baseDelay : Nat) (e : String)
    (h : fn 0 = .error e) (hsig : invalidKeySig (toLowerCaseStr e) = true) :
    withRetry fn retries baseDelay 0 =
      { result := .thrown invalidKeyMessage, attempts := 1, totalDelay := 0 } :=
  withRetry_step_invalid fn retries baseDelay 0 e h hsig

/-- Witness for C1: a concrete invalid-credential failure is settled in one
attempt with no delay. -/
theorem retry_invalid_credential_single_attempt_witness :
    invalidKeySig (toLowerCaseStr "API key not valid. Please pass a valid API key.") = true ∧
    withRetry (fun _ => (.error "API key not valid. Please pass a valid API key." :
        Except String String)) DEFAULT_RETRIES DEFAULT_BASE_DELAY 0 =
      { result := .thrown invalidKeyMessage, attempts := 1, totalDelay := 0 } :=
  ⟨by decide,
   retry_invalid_credential_single_attempt
     (fun _ => (.error "API key not valid. Please pass a valid API key." :
        Except String String)) DEFAULT_RETRIES DEFAULT_BASE_DELAY
     "API key not valid. Please pass a valid API key." rfl (by decide)⟩

/-- C2.  Three consecutive retryable (rate-limit/overload signature) failures
followed by a success: `withRetry` with its default budget of 3 retries
returns the success value after 4 attempts, and the total wait is
base delay + 2×base delay + 4×base delay (the delay doubles after every
retryable failure). -/
theorem retry_three_failures_then_success {α : Type}
    (fn : Nat → Except String α) (b : Nat) (e0 e1 e2 : String) (a : α)
    (h0 : fn 0 = .error e0) (h1 : fn 1 = .error e1) (h2 : fn 2 = .error e2)
    (h3 : fn 3 = .ok a)
    (hv0 : invalidKeySig (toLowerCaseStr e0) = false)
    (hr0 : (isRateLimitSig (toLowerCaseStr e0) ||
            isServerOverloadSig (toLowerCaseStr e0)) = true)
    (hv1 : invalidKeySig (toLowerCaseStr e1) = false)
    (hr1 : (isRateLimitSig (toLowerCaseStr e1) ||
            isServerOverloadSig (toLowerCaseStr e1)) = true)
    (hv2 : invalidKeySig (toLowerCaseStr e2) = false)
    (hr2 : (isRateLimitSig (toLowerCaseStr e2) ||
            isServerOverloadSig (toLowerCaseStr e2)) = true) :
    withRetry fn DEFAULT_RETRIES b 0 =
      { result := .ok a, attempts := 4, totalDelay := b + 2 * b + 4 * b } := by
  have s0 := withRetry_step_retry fn 2 b 0 e0 h0 hv0 hr0
  have s1 := withRetry_step_retry fn 1 (b * 2) 1 e1 h1 hv1 hr1
  have s2 := withRetry_step_retry fn 0 (b * 2 * 2) 2 e2 h2 hv2 hr2
  have s3 := withRetry_step_ok fn 0 (b * 2 * 2 * 2) 3 a h3
  show withRetry fn 3 b 0 = _
  rw [show (3 : Nat) = 2 + 1 from rfl, s0, show (2 : Nat) = 1 + 1 from rfl, s1,
    show (1 : Nat) = 0 + 1 from rfl, s2, s3]
  simp only [RetryRun.mk.injEq]
  refine ⟨trivial, trivial, ?_⟩
  ring

/-- Witness for C2: three concrete quota failures then a success, with base
delay 5000, yield the success after a 35000 total wait. -/
theorem retry_three_failures_then_success_witness :
    withRetry (fun i => if i < 3 then .error "429 RESOURCE_EXHAUSTED: quota exceeded"
        else (.ok "done" : Except String String)) DEFAULT_RETRIES DEFAULT_BASE_DELAY 0 =
      { result := .ok "done", attempts := 4,
        totalDelay := DEFAULT_BASE_DELAY + 2 * DEFAULT_BASE_DELAY + 4 * DEFAULT_BASE_DELAY } :=
  retry_three_failures_then_success
    (fun i => if i < 3 then .error "429 RESOURCE_EXHAUSTED: quota exceeded"
        else (.ok "done" : Except String String)) DEFAULT_BASE_DELAY
    "429 RESOURCE_EXHAUSTED: quota exceeded" "429 RESOURCE_EXHAUSTED: quota exceeded"
    "429 RESOURCE_EXHAUSTED: quota exceeded" "done"
    rfl rfl rfl rfl (by decide) (by decide) (by decide) (by decide) (by decide) (by decide)

/-- C3.  When every attempt fails with a retryable (quota/overload) signature,
`withRetry` with its default budget stops after exactly 4 total attempts and
rethrows the last attempt's error — it is neither swallowed nor replaced by a
default result, and the run terminates. -/
theorem retry_budget_exhausted_propagates_last_error {α : Type}
    (fn : Nat → Except String α) (b : Nat) (e0 e1 e2 e3 : String)
    (h0 : fn 0 = .error e0) (h1 : fn 1 = .error e1) (h2 : fn 2 = .error e2)
    (h3 : fn 3 = .error e3)
    (hv0 : invalidKeySig (toLowerCaseStr e0) = false)
    (hr0 : (isRateLimitSig (toLowerCaseStr e0) ||
            isServerOverloadSig (toLowerCaseStr e0)) = true)
    (hv1 : invalidKeySig (toLowerCaseStr e1) = false)
    (hr1 : (isRateLimitSig (toLowerCaseStr e1) ||
            isServerOverloadSig (toLowerCaseStr e1)) = true)
    (hv2 : invalidKeySig (toLowerCaseStr e2) = false)
    (hr2 : (isRateLimitSig (toLowerCaseStr e2) ||
            isServerOverloadSig (toLowerCaseStr e2)) = true)
    (hv3 : invalidKeySig (toLowerCaseStr e3) = false)
    (hr3 : (isRateLimitSig (toLowerCaseStr e3) ||
            isServerOverloadSig (toLowerCaseStr e3)) = true) :
    withRetry fn DEFAULT_RETRIES b 0 =
      { result := .thrown e3, attempts := 4, totalDelay := b + 2 * b + 4 * b } := by
  have s0 := withRetry_step_retry fn 2 b 0 e0 h0 hv0 hr0
  have s1 := withRetry_step_retry fn 1 (b * 2) 1 e1 h1 hv1 hr1
  have s2 := withRetry_step_retry fn 0 (b * 2 * 2) 2 e2 h2 hv2 hr2
  have s3 := withRetry_step_exhausted fn (b * 2 * 2 * 2) 3 e3 h3 hv3 hr3
  show withRetry fn 3 b 0 = _
  rw [show (3 : Nat) = 2 + 1 from rfl, s0, show (2 : Nat) = 1 + 1 from rfl, s1,
    show (1 : Nat) = 0 + 1 from rfl, s2, s3]
  simp only [RetryRun.mk.injEq]
  refine ⟨trivial, trivial, ?_⟩
  ring

/-- Witness for C3: four concrete quota failures stop after 4 attempts and
rethrow the fourth error. -/
theorem retry_budget_exhausted_propagates_last_error_witness :
    withRetry (fun i => (.error (if i = 3 then "quota exceeded (last)" else "429 quota") :
        Except String Nat)) DEFAULT_RETRIES DEFAULT_BASE_DELAY 0 =
      { result := .thrown "quota exceeded (last)", attempts := 4,
        totalDelay := DEFAULT_BASE_DELAY + 2 * DEFAULT_BASE_DELAY + 4 * DEFAULT_BASE_DELAY } :=
  retry_budget_exhausted_propagates_last_error
    (fun i => (.error (if i = 3 then "quota exceeded (last)" else "429 quota") :
        Except String Nat)) DEFAULT_BASE_DELAY
    "429 quota" "429 quota" "429 quota" "quota exceeded (last)"
    rfl rfl rfl rfl (by decide) (by decide) (by decide) (by decide)
    (by decide) (by decide) (by decide) (by decide)

/-- Dropping all but the last element of a list keeps exactly the last element
when there is one (the effect of `slice(-1)`). -/
theorem drop_length_sub_one {α : Type} :
    (es : List α) → es.drop (es.length - 1) =
      (match es.getLast? with
       | none => []
       | some e => [e])
  | [] => rfl
  | [_] => rfl
  | a :: b :: t => by
    have ih := drop_length_sub_one (b :: t)
    simp only [List.getLast?_cons_cons]
    calc (a :: b :: t).drop ((a :: b :: t).length - 1)
        = (b :: t).drop ((b :: t).length - 1) := by
          simp [List.length_cons]
      _ = _ := ih

/-- C4.  For every list of reference examples supplied to `analyzeImage`, the
composed request parts contain at most one few-shot example pair, and when the
list is non-empty it is exactly the last example in the supplied order; older
examples are dropped.  The composed list is the (possibly absent) pair for the
last example, then the target image, then the closing instruction. -/
theorem composeParts_keeps_only_last_example (base64Data fieldList : String)
    (examples : List ReferenceExample) :
    composeParts base64Data fieldList examples =
      (match examples.getLast? with
       | none => []
       | some ex =>
         [Part.inlineData "image/jpeg" ex.base64,
          Part.text ("Example Output (JSON Array): " ++ ex.dataJson)])
      ++ [Part.inlineData "image/jpeg" base64Data,
          Part.text (closingInstruction fieldList)] := by
  unfold composeParts
  rw [drop_length_sub_one examples]
  cases examples.getLast? <;> rfl

/-- C5.  Credential resolution is by strict priority: a non-empty user-supplied
credential is effective regardless of the deployment credential; an empty one
falls back to the deployment-level credential; and when neither is non-empty,
`analyzeImage` fails with the "Missing API Key" error while making zero remote
attempts and waiting no delay. -/
theorem credential_resolution_priority (apiKey envApiKey viteApiKey : String)
    (remote : Nat → Except String String) (retries baseDelay : Nat) :
    (apiKey ≠ "" → effectiveKeyOf apiKey envApiKey viteApiKey = apiKey) ∧
    (apiKey = "" →
      effectiveKeyOf apiKey envApiKey viteApiKey = getSystemApiKey envApiKey viteApiKey) ∧
    (effectiveKeyOf apiKey envApiKey viteApiKey = "" →
      analyzeImage apiKey envApiKey viteApiKey remote retries baseDelay =
        { result := .error missingKeyMessage, remoteAttempts := 0, totalDelay := 0 }) := by
  refine ⟨fun h => ?_, fun h => ?_, fun h => ?_⟩
  · simp [effectiveKeyOf, h]
  · simp [effectiveKeyOf, h]
  · have hm : friendlyMessage missingKeyMessage = missingKeyMessage := by decide
    unfold analyzeImage
    rw [h]
    simp [hm]

/-- Witness for C5: a user key overrides a deployment key, an empty user key
falls back to the deployment key, and with neither present the call fails with
the missing-key error before any remote attempt. -/
theorem credential_resolution_priority_witness :
    effectiveKeyOf "user-key" "deploy-key" "" = "user-key" ∧
    effectiveKeyOf "" "deploy-key" "" = "deploy-key" ∧
    analyzeImage "" "" "" (fun _ => .ok "[]") DEFAULT_RETRIES DEFAULT_BASE_DELAY =
      { result := .error missingKeyMessage, remoteAttempts := 0, totalDelay := 0 } := by
  refine ⟨?_, ?_, ?_⟩
  · exact (credential_resolution_priority "user-key" "deploy-key" ""
      (fun _ => .ok "[]") DEFAULT_RETRIES DEFAULT_BASE_DELAY).1 (by decide)
  · have h := (credential_resolution_priority "" "deploy-key" ""
      (fun _ => .ok "[]") DEFAULT_RETRIES DEFAULT_BASE_DELAY).2.1 rfl
    rw [h]; decide
  · exact (credential_resolution_priority "" "" ""
      (fun _ => .ok "[]") DEFAULT_RETRIES DEFAULT_BASE_DELAY).2.2 (by decide)

/-- C6.  For every non-empty response text that, after trimming and stripping a
```` ```json ```` fence, parses as JSON: an array parse result is returned
verbatim as the extraction result, and a non-array parse result (e.g. a bare
object) is wrapped into a single-element array.  The result is whatever parsed
— the normalizer takes no field schema, so field names are not validated. -/
theorem response_normalizer_array_wrap (t : String) (v : Json)
    (hne : t ≠ "")
    (hp : jsonParse (stripJsonFence (trimStr t)) = some v) :
    processResponse t = .ok (ensureArray v) ∧
    (∀ xs, v = Json.arr xs → processResponse t = .ok xs) ∧
    (isJsonArray v = false → processResponse t = .ok [v]) := by
  have hmain : processResponse t = .ok (ensureArray v) := by
    unfold processResponse
    rw [if_neg hne]
    simp only [hp]
  refine ⟨hmain, fun xs hxs => ?_, fun hnarr => ?_⟩
  · rw [hmain, hxs]; rfl
  · rw [hmain]
    cases v with
    | arr xs => simp [isJsonArray] at hnarr
    | null => rfl
    | bool b => rfl
    | num l => rfl
    | str s => rfl
    | obj ms => rfl

/-- Witness for C6: the bare object `\x7b"a":1\x7d` parses as a non-array and
is auto-wrapped into a one-element array. -/
theorem response_normalizer_array_wrap_witness :
    processResponse "\x7b\x22a\x22:1\x7d" = .ok [Json.obj [("a", Json.num "1")]] :=
  (response_normalizer_array_wrap "\x7b\x22a\x22:1\x7d"
      (Json.obj [("a", Json.num "1")]) (by decide) rfl).2.2 rfl

/-- C7.  The resizer never upscales: when the longest input side is within
`MAX_SIZE` the output dimensions equal the input's.  When the longest side
exceeds `MAX_SIZE`, the output's longest side is exactly `MAX_SIZE` and the
aspect ratio is preserved within rounding: the cross products of the output
and input dimensions differ by less than one scaled pixel row/column. -/
theorem resizeDims_bounds (w h : Nat) :
    (max w h ≤ MAX_SIZE → resizeDims w h = (w, h)) ∧
    (MAX_SIZE < max w h →
      max (resizeDims w h).1 (resizeDims w h).2 = MAX_SIZE ∧
      (((resizeDims w h).1 * h : ℤ) - ((resizeDims w h).2 * w : ℤ)).natAbs < max w h) := by
  constructor
  · intro hle
    unfold resizeDims
    by_cases hwh : w > h
    · have hw : ¬ w > MAX_SIZE := by
        have := Nat.le_max_left w h; omega
      simp [hwh, hw]
    · have hh : ¬ h > MAX_SIZE := by
        have := Nat.le_max_right w h; omega
      simp [hwh, hh]
  · intro hgt
    by_cases hwh : w > h
    · have hmax : max w h = w := Nat.max_eq_left (Nat.le_of_lt hwh)
      have hw : w > MAX_SIZE := by omega
      have hwpos : 0 < w := by
        have : (0 : Nat) < MAX_SIZE := by norm_num [MAX_SIZE]
        omega
      have hres : resizeDims w h = (MAX_SIZE, h * MAX_SIZE / w) := by
        unfold resizeDims
        simp [hwh, hw]
      rw [hres, hmax]
      have hqle : h * MAX_SIZE / w ≤ MAX_SIZE := by
        have h1 : h * MAX_SIZE ≤ w * MAX_SIZE :=
          Nat.mul_le_mul_right _ (Nat.le_of_lt hwh)
        have h2 : h * MAX_SIZE / w ≤ w * MAX_SIZE / w := Nat.div_le_div_right h1
        rwa [Nat.mul_div_cancel_left _ hwpos] at h2
      refine ⟨Nat.max_eq_left hqle, ?_⟩
      have hdm : h * MAX_SIZE / w * w + h * MAX_SIZE % w = h * MAX_SIZE :=
        Nat.div_add_mod' _ _
      have hmod : h * MAX_SIZE % w < w := Nat.mod_lt _ hwpos
      have hcast : ((MAX_SIZE * h : ℤ) - ((h * MAX_SIZE / w) * w : ℤ)) =
          (h * MAX_SIZE % w : Nat) := by
        have := congrArg (fun n : Nat => (n : ℤ)) hdm
        push_cast at this ⊢
        linarith
      show ((MAX_SIZE * h : ℤ) - ((h * MAX_SIZE / w) * w : ℤ)).natAbs < w
      rw [hcast]
      simpa using hmod
    · have hle' : w ≤ h := Nat.le_of_not_lt hwh
      have hmax : max w h = h := Nat.max_eq_right hle'
      have hh : h > MAX_SIZE := by omega
      have hhpos : 0 < h := by
        have : (0 : Nat) < MAX_SIZE := by norm_num [MAX_SIZE]
        omega
      have hres : resizeDims w h = (w * MAX_SIZE / h, MAX_SIZE) := by
        unfold resizeDims
        simp [hwh, hh]
      rw [hres, hmax]
      have hqle : w * MAX_SIZE / h ≤ MAX_SIZE := by
        have h1 : w * MAX_SIZE ≤ h * MAX_SIZE := Nat.mul_le_mul_right _ hle'
        have h2 : w * MAX_SIZE / h ≤ h * MAX_SIZE / h := Nat.div_le_div_right h1
        rwa [Nat.mul_div_cancel_left _ hhpos] at h2
      refine ⟨Nat.max_eq_right hqle, ?_⟩
      have hdm : w * MAX_SIZE / h * h + w * MAX_SIZE % h = w * MAX_SIZE :=
        Nat.div_add_mod' _ _
      have hmod : w * MAX_SIZE % h < h := Nat.mod_lt _ hhpos
      have hcast : (((w * MAX_SIZE / h) * h : ℤ) - (MAX_SIZE * w : ℤ)) =
          -(w * MAX_SIZE % h : Nat) := by
        have := congrArg (fun n : Nat => (n : ℤ)) hdm
        push_cast at this ⊢
        linarith
      show (((w * MAX_SIZE / h) * h : ℤ) - (MAX_SIZE * w : ℤ)).natAbs < h
      rw [hcast]
      simpa using hmod

/-- Witness for C7: an 800×600 image is untouched; a 2048×1000 image comes out
1024 wide with the cross-product bound satisfied. -/
theorem resizeDims_bounds_witness :
    resizeDims 800 600 = (800, 600) ∧
    max (resizeDims 2048 1000).1 (resizeDims 2048 1000).2 = MAX_SIZE ∧
    (((resizeDims 2048 1000).1 * 1000 : ℤ) - ((resizeDims 2048 1000).2 * 2048 : ℤ)).natAbs
      < max 2048 1000 :=
  ⟨(resizeDims_bounds 800 600).1 (by decide),
   (resizeDims_bounds 2048 1000).2 (by decide)⟩

/-- C9.  When the remote call succeeds but yields an empty response string,
`analyzeImage` fails with the terminal "no response" error after exactly one
remote attempt and no backoff wait — response parsing happens outside the
retry wrapper, so this failure is never retried. -/
theorem analyzeImage_empty_response_terminal (apiKey envApiKey viteApiKey : String)
    (remote : Nat → Except String String) (retries baseDelay : Nat)
    (hkey : effectiveKeyOf apiKey envApiKey viteApiKey ≠ "")
    (h0 : remote 0 = .ok "") :
    analyzeImage apiKey envApiKey viteApiKey remote retries baseDelay =
      { result := .error noResponseMessage, remoteAttempts := 1, totalDelay := 0 } := by
  have hm : friendlyMessage noResponseMessage = noResponseMessage := by decide
  unfold analyzeImage
  rw [if_neg hkey, withRetry_step_ok remote retries baseDelay 0 "" h0]
  simp [processResponse, hm]

/-- Witness for C9: a remote call that returns an empty text produces the
"no response" error with one attempt and zero delay. -/
theorem analyzeImage_empty_response_terminal_witness :
    analyzeImage "user-key" "" "" (fun _ => .ok "") DEFAULT_RETRIES DEFAULT_BASE_DELAY =
      { result := .error noResponseMessage, remoteAttempts := 1, totalDelay := 0 } :=
  analyzeImage_empty_response_terminal "user-key" "" "" (fun _ => .ok "")
    DEFAULT_RETRIES DEFAULT_BASE_DELAY (by decide) rfl

/-- A character list starting with a known prefix literally starts with its
first character. -/
theorem charsPrefix_eq_cons {p : Char} {ps cs : List Char}
    (h : charsPrefix (p :: ps) cs = true) : ∃ rest, cs = p :: rest := by
  cases cs with
  | nil => simp [charsPrefix] at h
  | cons c rest =>
    unfold charsPrefix at h
    rw [Bool.and_eq_true] at h
    exact ⟨rest, by rw [eq_of_beq h.1]⟩

/-- No JSON value starts with a backtick, so the parser rejects such input. -/
theorem parseVal_backtick (f : Nat) (rest : List Char) :
    parseVal (f + 1) ('\x60' :: rest) = none := rfl

/-- C10.  Fence stripping fires only on the exact prefix ```` ```json ````: a
trimmed response that starts with a bare ```` ``` ```` (and not with
```` ```json ````) is left unchanged by the stripper, so the fence markers
reach the JSON parser and the response fails as malformed. -/
theorem bare_fence_not_stripped (t : String)
    (h3 : startsWithStr (trimStr t) "\x60\x60\x60" = true)
    (hj : startsWithStr (trimStr t) "\x60\x60\x60json" = false) :
    stripJsonFence (trimStr t) = trimStr t ∧
    processResponse t = .error .jsonSyntaxError := by
  have hstrip : stripJsonFence (trimStr t) = trimStr t := by
    unfold stripJsonFence
    rw [hj]
    simp
  have hne : t ≠ "" := by
    intro h
    rw [h] at h3
    exact absurd h3 (by decide)
  have hdata : ∃ rest, (trimStr t).data = '\x60' :: rest := by
    unfold startsWithStr at h3
    exact @charsPrefix_eq_cons '\x60' ['\x60', '\x60'] (trimStr t).data h3
  obtain ⟨rest, hdata⟩ := hdata
  have hparse : jsonParse (trimStr t) = none := by
    unfold jsonParse
    rw [hdata]
    simp only [List.length_cons]
    rw [parseVal_backtick (rest.length + 1) rest]
  refine ⟨hstrip, ?_⟩
  unfold processResponse
  rw [if_neg hne]
  simp only [hstrip, hparse]

/-- Witness for C10: a response fenced with a bare ```` ``` ```` is not
unfenced and is rejected as malformed. -/
theorem bare_fence_not_stripped_witness :
    stripJsonFence (trimStr "\x60\x60\x60\n[1]\n\x60\x60\x60") =
      trimStr "\x60\x60\x60\n[1]\n\x60\x60\x60" ∧
    processResponse "\x60\x60\x60\n[1]\n\x60\x60\x60" = .error .jsonSyntaxError :=
  bare_fence_not_stripped "\x60\x60\x60\n[1]\n\x60\x60\x60" (by decide) (by decide)

/-- C8, counterexample.  The claim that `validateApiKey` classifies a probe
failure as quota-exhausted exactly when its text matches the retry
controller's rate-limit/overload signature set fails on the failure text
"the model is overloaded": `withRetry` treats it as retryable
(server-overload signature), but the validator classifies it `invalid` — its
quota test omits "exhausted", "503" and "overloaded". -/
theorem validator_quota_signature_mismatch :
    ¬ (((validateApiKey "some-key" (.failure "the model is overloaded")
          "detail").status = VStatus.quota) ↔
        ((isRateLimitSig (toLowerCaseStr "the model is overloaded") ||
          isServerOverloadSig (toLowerCaseStr "the model is overloaded")) = true)) := by
  decide

/-- C8, amended.  `validateApiKey` classifies a failed probe as
quota-exhausted iff its lowercased text contains "429", "quota" or
"resource_exhausted" — a strict subset of the retry controller's
rate-limit/overload signatures (every validator quota match is retryable for
`withRetry`, but not conversely); an empty credential or any other failure is
classified invalid, and a successful probe valid. -/
theorem validateApiKey_classification (apiKey errorDetail e : String)
    (probe : ProbeOutcome) :
    validateApiKey "" probe errorDetail =
      { status := .invalid, message := some "Empty Key", detail := none } ∧
    (apiKey ≠ "" → validateApiKey apiKey .success errorDetail =
      { status := .valid, message := none, detail := none }) ∧
    (apiKey ≠ "" →
      (((validateApiKey apiKey (.failure e) errorDetail).status = VStatus.quota) ↔
        (includesStr (toLowerCaseStr e) "429" || includesStr (toLowerCaseStr e) "quota" ||
         includesStr (toLowerCaseStr e) "resource_exhausted") = true)) ∧
    (apiKey ≠ "" →
      (includesStr (toLowerCaseStr e) "429" || includesStr (toLowerCaseStr e) "quota" ||
       includesStr (toLowerCaseStr e) "resource_exhausted") = false →
      (validateApiKey apiKey (.failure e) errorDetail).status = VStatus.invalid) ∧
    ((includesStr (toLowerCaseStr e) "429" || includesStr (toLowerCaseStr e) "quota" ||
      includesStr (toLowerCaseStr e) "resource_exhausted") = true →
      (isRateLimitSig (toLowerCaseStr e) || isServerOverloadSig (toLowerCaseStr e)) = true) := by
  refine ⟨by simp [validateApiKey], fun hne => by simp [validateApiKey, hne],
    fun hne => ?_, fun hne hq => ?_, fun hq => ?_⟩
  · by_cases hc : (includesStr (toLowerCaseStr e) "429" ||
        includesStr (toLowerCaseStr e) "quota" ||
        includesStr (toLowerCaseStr e) "resource_exhausted") = true
    · simp [validateApiKey, hne, hc]
    · rw [Bool.not_eq_true] at hc
      simp [validateApiKey, hne, hc]
  · rw [Bool.or_assoc] at hq
    rw [Bool.or_eq_false_iff] at hq
    obtain ⟨h1, hq⟩ := hq
    rw [Bool.or_eq_false_iff] at hq
    obtain ⟨h2, h3⟩ := hq
    simp [validateApiKey, hne, h1, h2, h3]
  · cases h429 : includesStr (toLowerCaseStr e) "429" <;>
      cases hqu : includesStr (toLowerCaseStr e) "quota" <;>
      cases hre : includesStr (toLowerCaseStr e) "resource_exhausted" <;>
      simp_all [isRateLimitSig, isServerOverloadSig]

/-- Witness for C8's amended classification: empty key → invalid; success →
valid; "429" text → quota; "overloaded" text → invalid. -/
theorem validateApiKey_classification_witness :
    validateApiKey "" .success "detail" =
      { status := .invalid, message := some "Empty Key", detail := none } ∧
    validateApiKey "some-key" .success "detail" =
      { status := .valid, message := none, detail := none } ∧
    (validateApiKey "some-key" (.failure "429 Too Many Requests") "detail").status =
      VStatus.quota ∧
    (validateApiKey "some-key" (.failure "the model is overloaded") "detail").status =
      VStatus.invalid := by
  have h1 := validateApiKey_classification "some-key" "detail"
    "429 Too Many Requests" ProbeOutcome.success
  have h2 := validateApiKey_classification "some-key" "detail"
    "the model is overloaded" ProbeOutcome.success
  refine ⟨h1.1, h1.2.1 (by decide), (h1.2.2.1 (by decide)).mpr (by decide),
    h2.2.2.2.1 (by decide) (by decide)⟩

end ScottLin
